import Mathlib

/-!
Shallow embedding of the buffer-lifecycle core of VimbaPython
(`vimba/camera.py`): the capture state machine `_CaptureFsm` with its
per-state `forward`/`backward` methods, the synchronous frame generator
`_frame_generator`, and the `Camera` streaming operations
`start_streaming` / `stop_streaming` / `is_streaming` / `queue_frame` /
`__frame_cb_wrapper`, together with the error builder
`_build_camera_error`.

The driver (VmbC) is modelled as an oracle assigning a result code to
each primitive call; every issued driver call is recorded in a trace so
that call balance (announce vs revoke) and "no driver primitive issued"
statements can be expressed.  Python exceptions are modelled as values
of type `PyError`; a function "raises" by returning `some e`.
-/

set_option autoImplicit false

namespace Vimba

/-- VmbC result codes.  `_build_camera_error` distinguishes the first six;
every other code falls into the generic branch (modelled by `Other`). -/
inductive VmbErr where
  | Success
  | ApiNotStarted
  | DeviceNotOpen
  | BadHandle
  | InvalidAccess
  | Timeout
  | Other
  deriving DecidableEq, Repr

/-- Camera access modes (enum `AccessMode` in `camera.py`). -/
inductive AccessMode where
  | None_
  | Full
  | Read
  | Config
  deriving DecidableEq, Repr

/-- Python exceptions raised by the embedded code.
`systemError` is `VimbaSystemError`, `timeoutError` is `VimbaTimeout`,
`valueError` is `ValueError`; all remaining constructors are
`VimbaCameraError` instances distinguished by the branch of
`_build_camera_error` (or the literal message) that produced them.
`alreadyStreaming c` is `VimbaCameraError("Camera c already streaming.")`. -/
inductive PyError where
  | valueError
  | alreadyStreaming (camId : Nat)
  | systemError (camId : Nat)
  | notOpenError (camId : Nat)
  | badHandleError (camId : Nat)
  | invalidAccessError (camId : Nat)
  | timeoutError (camId : Nat)
  | genericError (code : VmbErr)
  | cameraMsgError (msg : String)
  deriving DecidableEq, Repr

/-- `_build_camera_error(cam, orig_exc)`: translate a driver result code
into the typed Python error raised to the user. -/
def buildCameraError (camId : Nat) (err : VmbErr) : PyError :=
  match err with
  | .ApiNotStarted => .systemError camId
  | .DeviceNotOpen => .notOpenError camId
  | .BadHandle => .badHandleError camId
  | .InvalidAccess => .invalidAccessError camId
  | .Timeout => .timeoutError camId
  | _ => .genericError err

/-- One driver call issued through `call_vimba_c` (or one of the two
acquisition feature commands).  Frames are identified by their index /
buffer address as a `Nat`. -/
inductive DriverCall where
  | announce (i : Nat)
  | captureStart
  | queueFlush
  | captureEnd
  | revoke (i : Nat)
  | frameQueue (i : Nat)
  | frameWait (i : Nat)
  | acqStart
  | acqStop
  deriving DecidableEq, Repr

/-- Driver oracle: the result code each primitive returns, per frame
index where applicable.  `acqStartExc` / `acqStopExc` model the
`AcquisitionStart` / `AcquisitionStop` feature commands, which raise an
arbitrary exception (carrying a message) instead of a VmbC code. -/
structure Driver where
  announceRes : Nat → VmbErr
  captureStartRes : VmbErr
  queueFlushRes : VmbErr
  captureEndRes : VmbErr
  revokeRes : Nat → VmbErr
  frameQueueRes : Nat → VmbErr
  frameWaitRes : Nat → VmbErr
  acqStartExc : Option String
  acqStopExc : Option String

/-- Result of one `call_vimba_c` invocation: `none` on `Success`,
otherwise the typed error produced by `_build_camera_error`. -/
def callResult (camId : Nat) (e : VmbErr) : Option PyError :=
  if e = VmbErr.Success then none else some (buildCameraError camId e)

/-- The five FSM states (`_StateInit`, `_StateAnnounced`,
`_StateCapturing`, `_StateNotAcquiring`, `_StateAcquiring`). -/
inductive FsmState where
  | init
  | announced
  | capturing
  | notAcquiring
  | acquiring
  deriving DecidableEq, Repr

/-- `_StateInit.forward`: announce every frame in order; stop at the
first failing announce, returning the error built from its code.  The
trace records every announce call actually issued (the failing one
included). -/
def announceLoop (camId : Nat) (d : Driver) :
    List Nat → List DriverCall × Option PyError
  | [] => ([], none)
  | i :: rest =>
    match callResult camId (d.announceRes i) with
    | none =>
      let r := announceLoop camId d rest
      (DriverCall.announce i :: r.1, r.2)
    | some e => ([DriverCall.announce i], some e)

/-- `_StateAnnounced.backward`: revoke every frame in order; stop at the
first failing revoke. -/
def revokeLoop (camId : Nat) (d : Driver) :
    List Nat → List DriverCall × Option PyError
  | [] => ([], none)
  | i :: rest =>
    match callResult camId (d.revokeRes i) with
    | none =>
      let r := revokeLoop camId d rest
      (DriverCall.revoke i :: r.1, r.2)
    | some e => ([DriverCall.revoke i], some e)

/-- First loop of `_StateAcquiring.wait_for_frames` (and the per-frame
`_StateAcquiring.queue_frame`): enqueue every frame in order, raising on
the first failure. -/
def queueLoop (camId : Nat) (d : Driver) :
    List Nat → List DriverCall × Option PyError
  | [] => ([], none)
  | i :: rest =>
    match callResult camId (d.frameQueueRes i) with
    | none =>
      let r := queueLoop camId d rest
      (DriverCall.frameQueue i :: r.1, r.2)
    | some e => ([DriverCall.frameQueue i], some e)

/-- Second loop of `_StateAcquiring.wait_for_frames`: wait on every
frame in order, raising on the first failure. -/
def waitLoop (camId : Nat) (d : Driver) :
    List Nat → List DriverCall × Option PyError
  | [] => ([], none)
  | i :: rest =>
    match callResult camId (d.frameWaitRes i) with
    | none =>
      let r := waitLoop camId d rest
      (DriverCall.frameWait i :: r.1, r.2)
    | some e => ([DriverCall.frameWait i], some e)

/-- One `forward()` step of the state object for `s`.  `none` models the
`AttributeError` raised when the state class has no `forward` method
(`_StateNotAcquiring`, `_StateAcquiring`); otherwise the issued calls
plus either the next state or the returned error. -/
def forwardStep (camId : Nat) (mode : AccessMode) (d : Driver)
    (frames : List Nat) : FsmState →
    Option (List DriverCall × Except PyError FsmState)
  | .init =>
    match announceLoop camId d frames with
    | (tr, none) => some (tr, .ok .announced)
    | (tr, some e) => some (tr, .error e)
  | .announced =>
    match callResult camId d.captureStartRes with
    | none => some ([DriverCall.captureStart], .ok .capturing)
    | some e => some ([DriverCall.captureStart], .error e)
  | .capturing =>
    -- AcquisitionStart is skipped on AccessMode.Read (multicast streaming)
    if mode = AccessMode.Read then some ([], .ok .acquiring)
    else
      match d.acqStartExc with
      | none => some ([DriverCall.acqStart], .ok .acquiring)
      | some msg => some ([DriverCall.acqStart], .error (.cameraMsgError msg))
  | .notAcquiring => none
  | .acquiring => none

/-- One `backward()` step of the state object for `s`; `none` models the
`AttributeError` on `_StateInit`. -/
def backwardStep (camId : Nat) (mode : AccessMode) (d : Driver)
    (frames : List Nat) : FsmState →
    Option (List DriverCall × Except PyError FsmState)
  | .init => none
  | .announced =>
    match revokeLoop camId d frames with
    | (tr, none) => some (tr, .ok .init)
    | (tr, some e) => some (tr, .error e)
  | .capturing =>
    match callResult camId d.queueFlushRes with
    | none => some ([DriverCall.queueFlush], .ok .announced)
    | some e => some ([DriverCall.queueFlush], .error e)
  | .notAcquiring =>
    match callResult camId d.captureEndRes with
    | none => some ([DriverCall.captureEnd], .ok .capturing)
    | some e => some ([DriverCall.captureEnd], .error e)
  | .acquiring =>
    -- AcquisitionStop is skipped on AccessMode.Read (multicast streaming)
    if mode = AccessMode.Read then some ([], .ok .notAcquiring)
    else
      match d.acqStopExc with
      | none => some ([DriverCall.acqStop], .ok .notAcquiring)
      | some msg => some ([DriverCall.acqStop], .error (.cameraMsgError msg))

/-- Outcome of an FSM driving loop: the issued calls, the error returned
by the loop (`None` in Python when it ran to the `AttributeError`
break), and the state the machine is left in. -/
structure FsmRun where
  trace : List DriverCall
  exc : Option PyError
  state : FsmState
  deriving DecidableEq, Repr

/-- `_CaptureFsm.enter_capturing_mode`: repeat `forward()` until the
state class has no `forward` (break) or a transition returns an error;
the state is not advanced past a failed transition.  The forward chain
has length at most 3, so any fuel above 4 makes the fuel bound
unreachable. -/
def enterLoop (camId : Nat) (mode : AccessMode) (d : Driver)
    (frames : List Nat) : Nat → FsmState → FsmRun
  | 0, s => ⟨[], none, s⟩
  | n + 1, s =>
    match forwardStep camId mode d frames s with
    | none => ⟨[], none, s⟩
    | some (tr, .error e) => ⟨tr, some e, s⟩
    | some (tr, .ok s2) =>
      let r := enterLoop camId mode d frames n s2
      ⟨tr ++ r.trace, r.exc, r.state⟩

/-- `_CaptureFsm.leave_capturing_mode`: repeat `backward()` until
`_StateInit` (break) or a failing transition. -/
def leaveLoop (camId : Nat) (mode : AccessMode) (d : Driver)
    (frames : List Nat) : Nat → FsmState → FsmRun
  | 0, s => ⟨[], none, s⟩
  | n + 1, s =>
    match backwardStep camId mode d frames s with
    | none => ⟨[], none, s⟩
    | some (tr, .error e) => ⟨tr, some e, s⟩
    | some (tr, .ok s2) =>
      let r := leaveLoop camId mode d frames n s2
      ⟨tr ++ r.trace, r.exc, r.state⟩

/-- `enter_capturing_mode` from a given state (fuel 8 exceeds the length
of any forward chain). -/
def enterCapturingMode (camId : Nat) (mode : AccessMode) (d : Driver)
    (frames : List Nat) (s : FsmState) : FsmRun :=
  enterLoop camId mode d frames 8 s

/-- `leave_capturing_mode` from a given state (fuel 8 exceeds the length
of any backward chain). -/
def leaveCapturingMode (camId : Nat) (mode : AccessMode) (d : Driver)
    (frames : List Nat) (s : FsmState) : FsmRun :=
  leaveLoop camId mode d frames 8 s

/-- `_CaptureFsm.queue_frame`: enqueue one frame, but only when the
machine is in `_StateAcquiring`; otherwise a silent no-op. -/
def fsmQueueFrame (camId : Nat) (d : Driver) (s : FsmState) (f : Nat) :
    List DriverCall × Option PyError :=
  if s = FsmState.acquiring then
    match callResult camId (d.frameQueueRes f) with
    | none => ([DriverCall.frameQueue f], none)
    | some e => ([DriverCall.frameQueue f], some e)
  else ([], none)

/-- `_CaptureFsm.wait_for_frames`: only in `_StateAcquiring`; enqueue
all frames, then wait on all frames, raising at the first failure. -/
def waitForFrames (camId : Nat) (d : Driver) (frames : List Nat)
    (s : FsmState) : List DriverCall × Option PyError :=
  if s = FsmState.acquiring then
    match queueLoop camId d frames with
    | (tr, some e) => (tr, some e)
    | (tr, none) =>
      let w := waitLoop camId d frames
      (tr ++ w.1, w.2)
  else ([], none)

/-- The `_Context`/`_CaptureFsm` pair held in `Camera.__capture_fsm`:
the session's frame tuple and the machine's current state. -/
structure Session where
  frames : List Nat
  fsmState : FsmState
  deriving DecidableEq, Repr

/-- The fields of `Camera` relevant to the streaming core. -/
structure Camera where
  camId : Nat
  accessMode : AccessMode
  disconnected : Bool
  captureFsm : Option Session
  deriving DecidableEq, Repr

/-- `Camera.is_streaming`. -/
def isStreaming (c : Camera) : Bool :=
  c.captureFsm.isSome && !c.disconnected

/-- Result of a streaming-engine operation: the camera afterwards, the
driver calls issued, and the raised error if any. -/
structure EngineResult where
  cam : Camera
  trace : List DriverCall
  err : Option PyError
  deriving DecidableEq, Repr

/-- The per-frame `queue_frame` loop on the success path of
`start_streaming`: each `_CaptureFsm.queue_frame` raises on failure,
aborting the loop. -/
def queueFramesLoop (camId : Nat) (d : Driver) (s : FsmState) :
    List Nat → List DriverCall × Option PyError
  | [] => ([], none)
  | f :: rest =>
    match fsmQueueFrame camId d s f with
    | (tr, some e) => (tr, some e)
    | (tr, none) =>
      let r := queueFramesLoop camId d s rest
      (tr ++ r.1, r.2)

/-- `Camera.start_streaming(handler, buffer_count)`.  Checks
`buffer_count <= 0` (ValueError), then `is_streaming` (already
streaming), builds a fresh FSM over `buffer_count` frames, runs
`enter_capturing_mode`; on failure runs `leave_capturing_mode`
(discarding its result), clears the FSM and raises the original error;
on success queues every frame (a queue failure propagates with the FSM
still installed). -/
def startStreaming (d : Driver) (c : Camera) (bufferCount : Int) :
    EngineResult :=
  if bufferCount ≤ 0 then ⟨c, [], some .valueError⟩
  else if isStreaming c then ⟨c, [], some (.alreadyStreaming c.camId)⟩
  else
    let frames := List.range bufferCount.toNat
    let er := enterCapturingMode c.camId c.accessMode d frames .init
    match er.exc with
    | some e =>
      let lr := leaveCapturingMode c.camId c.accessMode d frames er.state
      ⟨{ c with captureFsm := none }, er.trace ++ lr.trace, some e⟩
    | none =>
      let q := queueFramesLoop c.camId d er.state frames
      ⟨{ c with captureFsm := some ⟨frames, er.state⟩ }, er.trace ++ q.1, q.2⟩

/-- `Camera.stop_streaming`: silent return when not streaming; otherwise
run `leave_capturing_mode`, raise its error if any, and clear the FSM in
the `finally` block either way. -/
def stopStreaming (d : Driver) (c : Camera) : EngineResult :=
  if isStreaming c then
    match c.captureFsm with
    | none => ⟨c, [], none⟩
    | some sess =>
      let lr := leaveCapturingMode c.camId c.accessMode d sess.frames sess.fsmState
      ⟨{ c with captureFsm := none }, lr.trace, lr.exc⟩
  else ⟨c, [], none⟩

/-- `Camera.queue_frame(frame)`: silent return when no FSM is installed;
`ValueError` when the frame is not in the session's frame tuple;
otherwise `_CaptureFsm.queue_frame`. -/
def queueFrame (d : Driver) (c : Camera) (f : Nat) :
    List DriverCall × Option PyError :=
  match c.captureFsm with
  | none => ([], none)
  | some sess =>
    if f ∈ sess.frames then fsmQueueFrame c.camId d sess.fsmState f
    else ([], some .valueError)

/-- Outcome of one invocation of `Camera.__frame_cb_wrapper`. -/
inductive CbOutcome where
  | noop
  | dispatched (f : Nat)
  | assertFail
  | handlerRaised (f : Nat)
  deriving DecidableEq, Repr

/-- `Camera.__frame_cb_wrapper`: silent return when the FSM has been
discarded; otherwise match the raw buffer address against the session's
frames (assert on no match) and invoke the user handler, re-raising a
handler exception after logging it. -/
def frameCbWrapper (c : Camera) (rawBuf : Nat) (handlerRaises : Bool) :
    CbOutcome :=
  match c.captureFsm with
  | none => .noop
  | some sess =>
    match sess.frames.find? (fun f => f == rawBuf) with
    | none => .assertFail
    | some f => if handlerRaises then .handlerRaised f else .dispatched f

/-- Outcome of driving `_frame_generator` to exhaustion: the issued
calls, the frame ids yielded (in order), and the error terminating the
generator if any. -/
structure GenResult where
  trace : List DriverCall
  yields : List Nat
  err : Option PyError
  deriving DecidableEq, Repr

/-- Intermediate result of the generator's `while` loop. -/
structure GenLoopRes where
  trace : List DriverCall
  state : FsmState
  yields : List Nat
  err : Option PyError
  deriving DecidableEq, Repr

/-- The body of `_frame_generator`'s `while` loop, run `n` more times:
enter capturing mode (raise on failure), wait for the frame, leave
capturing mode (result discarded), stamp `frameID := cnt` and yield. -/
def genLoop (camId : Nat) (mode : AccessMode) (d : Driver)
    (frames : List Nat) : Nat → FsmState → Nat → GenLoopRes
  | 0, s, _ => ⟨[], s, [], none⟩
  | n + 1, s, cnt =>
    let er := enterCapturingMode camId mode d frames s
    match er.exc with
    | some e => ⟨er.trace, er.state, [], some e⟩
    | none =>
      match waitForFrames camId d frames er.state with
      | (wtr, some e) => ⟨er.trace ++ wtr, er.state, [], some e⟩
      | (wtr, none) =>
        let lr := leaveCapturingMode camId mode d frames er.state
        let rest := genLoop camId mode d frames n lr.state (cnt + 1)
        ⟨er.trace ++ wtr ++ lr.trace ++ rest.trace, rest.state,
         cnt :: rest.yields, rest.err⟩

/-- `_frame_generator(cam, limit, timeout_ms)` driven to exhaustion for
a finite limit: raises at once when the camera is streaming; otherwise
runs the loop over a single private frame and, in the `finally` block,
leaves capturing mode — an error raised there supersedes the loop's
outcome (Python `finally` semantics). -/
def frameGenerator (d : Driver) (c : Camera) (limit : Nat) : GenResult :=
  if isStreaming c then
    ⟨[], [], some (.cameraMsgError "Operation not supported while streaming.")⟩
  else
    let frames := [0]
    let g := genLoop c.camId c.accessMode d frames limit .init 0
    let lr := leaveCapturingMode c.camId c.accessMode d frames g.state
    match lr.exc with
    | some e2 => ⟨g.trace ++ lr.trace, g.yields, some e2⟩
    | none => ⟨g.trace ++ lr.trace, g.yields, g.err⟩

/-- `Camera.get_frame_generator(limit, timeout_ms)`: argument validation
(`limit and limit < 0`, `timeout_ms <= 0`) before constructing the
generator. -/
def getFrameGenerator (d : Driver) (c : Camera) (limit : Int)
    (timeout : Int) : Except PyError GenResult :=
  if limit ≠ 0 ∧ limit < 0 then .error .valueError
  else if timeout ≤ 0 then .error .valueError
  else .ok (frameGenerator d c limit.toNat)

/-- Number of calls in a trace matching a predicate. -/
def countCall (p : DriverCall → Bool) (tr : List DriverCall) : Nat :=
  (tr.filter p).length

/-- Is the call an announce? -/
def isAnnounce : DriverCall → Bool
  | .announce _ => true
  | _ => false

/-- Is the call a revoke? -/
def isRevoke : DriverCall → Bool
  | .revoke _ => true
  | _ => false

/-- Is the call a captureStart? -/
def isCaptureStart : DriverCall → Bool
  | .captureStart => true
  | _ => false

/-- A driver on which every primitive succeeds and neither acquisition
command raises. -/
def goodDriver (d : Driver) : Prop :=
  (∀ i, d.announceRes i = VmbErr.Success) ∧
  d.captureStartRes = VmbErr.Success ∧
  d.queueFlushRes = VmbErr.Success ∧
  d.captureEndRes = VmbErr.Success ∧
  (∀ i, d.revokeRes i = VmbErr.Success) ∧
  (∀ i, d.frameQueueRes i = VmbErr.Success) ∧
  (∀ i, d.frameWaitRes i = VmbErr.Success) ∧
  d.acqStartExc = none ∧ d.acqStopExc = none

/-- A concrete all-success driver. -/
def dGood : Driver :=
  ⟨fun _ => .Success, .Success, .Success, .Success, fun _ => .Success,
   fun _ => .Success, fun _ => .Success, none, none⟩

/-- A fresh, connected, non-streaming camera. -/
def cam0 : Camera := ⟨0, .Full, false, none⟩

/-- Does the error come from the already-streaming guard? -/
def isAlreadyStreamingErr : PyError → Bool
  | .alreadyStreaming _ => true
  | _ => false

theorem countCall_append (p : DriverCall → Bool) (t1 t2 : List DriverCall) :
    countCall p (t1 ++ t2) = countCall p t1 + countCall p t2 := by
  simp [countCall, List.filter_append]

theorem countCall_eq_zero_of_all (p : DriverCall → Bool) (tr : List DriverCall)
    (h : ∀ x ∈ tr, p x = false) : countCall p tr = 0 := by
  simp only [countCall, List.length_eq_zero]
  exact List.filter_eq_nil_iff.mpr (fun a ha => by simp [h a ha])

theorem announceLoop_trace_of_success (camId : Nat) (d : Driver) (fs : List Nat)
    (h : (announceLoop camId d fs).2 = none) :
    (announceLoop camId d fs).1 = fs.map DriverCall.announce := by
  induction fs with
  | nil => simp [announceLoop]
  | cons i rest ih =>
    cases hc : callResult camId (d.announceRes i) with
    | none =>
      simp only [announceLoop, hc] at h ⊢
      simp [ih h]
    | some e => simp [announceLoop, hc] at h

theorem revokeLoop_trace_of_success (camId : Nat) (d : Driver) (fs : List Nat)
    (h : (revokeLoop camId d fs).2 = none) :
    (revokeLoop camId d fs).1 = fs.map DriverCall.revoke := by
  induction fs with
  | nil => simp [revokeLoop]
  | cons i rest ih =>
    cases hc : callResult camId (d.revokeRes i) with
    | none =>
      simp only [revokeLoop, hc] at h ⊢
      simp [ih h]
    | some e => simp [revokeLoop, hc] at h

theorem announceLoop_good (camId : Nat) (d : Driver)
    (h : ∀ i, d.announceRes i = VmbErr.Success) (fs : List Nat) :
    announceLoop camId d fs = (fs.map DriverCall.announce, none) := by
  induction fs with
  | nil => rfl
  | cons i rest ih => simp [announceLoop, callResult, h, ih]

theorem revokeLoop_good (camId : Nat) (d : Driver)
    (h : ∀ i, d.revokeRes i = VmbErr.Success) (fs : List Nat) :
    revokeLoop camId d fs = (fs.map DriverCall.revoke, none) := by
  induction fs with
  | nil => rfl
  | cons i rest ih => simp [revokeLoop, callResult, h, ih]

theorem queueLoop_good (camId : Nat) (d : Driver)
    (h : ∀ i, d.frameQueueRes i = VmbErr.Success) (fs : List Nat) :
    queueLoop camId d fs = (fs.map DriverCall.frameQueue, none) := by
  induction fs with
  | nil => rfl
  | cons i rest ih => simp [queueLoop, callResult, h, ih]

theorem waitLoop_good (camId : Nat) (d : Driver)
    (h : ∀ i, d.frameWaitRes i = VmbErr.Success) (fs : List Nat) :
    waitLoop camId d fs = (fs.map DriverCall.frameWait, none) := by
  induction fs with
  | nil => rfl
  | cons i rest ih => simp [waitLoop, callResult, h, ih]

theorem buildCameraError_not_already (camId : Nat) (v : VmbErr) :
    isAlreadyStreamingErr (buildCameraError camId v) = false := by
  cases v <;> rfl

theorem callResult_not_already (camId : Nat) (v : VmbErr) (e : PyError)
    (h : callResult camId v = some e) : isAlreadyStreamingErr e = false := by
  unfold callResult at h
  split at h
  · exact Option.noConfusion h
  · obtain rfl := Option.some.inj h
    exact buildCameraError_not_already camId v

theorem announceLoop_not_already (camId : Nat) (d : Driver) (fs : List Nat)
    (e : PyError) (h : (announceLoop camId d fs).2 = some e) :
    isAlreadyStreamingErr e = false := by
  induction fs with
  | nil => simp [announceLoop] at h
  | cons i rest ih =>
    cases hc : callResult camId (d.announceRes i) with
    | none =>
      simp only [announceLoop, hc] at h
      exact ih h
    | some e2 =>
      simp only [announceLoop, hc] at h
      obtain rfl := Option.some.inj h
      exact callResult_not_already camId (d.announceRes i) e2 hc

theorem forwardStep_not_already (camId : Nat) (mode : AccessMode) (d : Driver)
    (fs : List Nat) (s : FsmState) (tr : List DriverCall) (e : PyError)
    (h : forwardStep camId mode d fs s = some (tr, .error e)) :
    isAlreadyStreamingErr e = false := by
  cases s with
  | init =>
    cases hA : announceLoop camId d fs with
    | mk atr aexc =>
      cases aexc with
      | none => simp [forwardStep, hA] at h
      | some e2 =>
        simp only [forwardStep, hA, Option.some.injEq, Prod.mk.injEq,
          Except.error.injEq] at h
        obtain ⟨-, rfl⟩ := h
        exact announceLoop_not_already camId d fs e2 (by rw [hA])
  | announced =>
    cases hc : callResult camId d.captureStartRes with
    | none => simp [forwardStep, hc] at h
    | some e2 =>
      simp only [forwardStep, hc, Option.some.injEq, Prod.mk.injEq,
        Except.error.injEq] at h
      obtain ⟨-, rfl⟩ := h
      exact callResult_not_already camId d.captureStartRes e2 hc
  | capturing =>
    by_cases hm : mode = AccessMode.Read
    · simp [forwardStep, hm] at h
    · cases hx : d.acqStartExc with
      | none => simp [forwardStep, hm, hx] at h
      | some msg =>
        simp only [forwardStep, if_neg hm, hx, Option.some.injEq, Prod.mk.injEq,
          Except.error.injEq] at h
        obtain ⟨-, rfl⟩ := h
        rfl
  | notAcquiring => simp [forwardStep] at h
  | acquiring => simp [forwardStep] at h

theorem enterLoop_not_already (camId : Nat) (mode : AccessMode) (d : Driver)
    (fs : List Nat) (n : Nat) (s : FsmState) (e : PyError)
    (h : (enterLoop camId mode d fs n s).exc = some e) :
    isAlreadyStreamingErr e = false := by
  induction n generalizing s with
  | zero => simp [enterLoop] at h
  | succ n ih =>
    cases hF : forwardStep camId mode d fs s with
    | none => simp [enterLoop, hF] at h
    | some pr =>
      obtain ⟨tr, res⟩ := pr
      cases res with
      | error e2 =>
        simp only [enterLoop, hF, Option.some.injEq] at h
        rw [← h]
        exact forwardStep_not_already camId mode d fs s tr e2 hF
      | ok s2 =>
        simp only [enterLoop, hF] at h
        exact ih s2 h

theorem fsmQueueFrame_not_already (camId : Nat) (d : Driver) (s : FsmState)
    (f : Nat) (e : PyError) (h : (fsmQueueFrame camId d s f).2 = some e) :
    isAlreadyStreamingErr e = false := by
  unfold fsmQueueFrame at h
  split at h
  · cases hc : callResult camId (d.frameQueueRes f) with
    | none => simp [hc] at h
    | some e2 =>
      simp only [hc] at h
      obtain rfl := Option.some.inj h
      exact callResult_not_already camId (d.frameQueueRes f) e2 hc
  · simp at h

theorem queueFramesLoop_not_already (camId : Nat) (d : Driver) (s : FsmState)
    (fs : List Nat) (e : PyError)
    (h : (queueFramesLoop camId d s fs).2 = some e) :
    isAlreadyStreamingErr e = false := by
  induction fs with
  | nil => simp [queueFramesLoop] at h
  | cons f rest ih =>
    cases hq : fsmQueueFrame camId d s f with
    | mk qtr qerr =>
      cases qerr with
      | none =>
        simp only [queueFramesLoop, hq] at h
        exact ih h
      | some e2 =>
        simp only [queueFramesLoop, hq] at h
        obtain rfl := Option.some.inj h
        exact fsmQueueFrame_not_already camId d s f e2 (by rw [hq])

theorem enter_from_init_success (camId : Nat) (mode : AccessMode) (d : Driver)
    (fs : List Nat)
    (h : (enterCapturingMode camId mode d fs .init).exc = none) :
    (enterCapturingMode camId mode d fs .init).state = FsmState.acquiring ∧
    (enterCapturingMode camId mode d fs .init).trace =
      fs.map DriverCall.announce ++ DriverCall.captureStart ::
        (if mode = AccessMode.Read then [] else [DriverCall.acqStart]) := by
  cases hA : announceLoop camId d fs with
  | mk atr aexc =>
    cases aexc with
    | some e => simp [enterCapturingMode, enterLoop, forwardStep, hA] at h
    | none =>
      have hat : atr = fs.map DriverCall.announce := by
        have h2 := announceLoop_trace_of_success camId d fs (by rw [hA])
        rw [hA] at h2
        exact h2
      cases hcs : callResult camId d.captureStartRes with
      | some e =>
        simp [enterCapturingMode, enterLoop, forwardStep, hA, hcs] at h
      | none =>
        by_cases hm : mode = AccessMode.Read
        · subst hm
          simp [enterCapturingMode, enterLoop, forwardStep, hA, hcs, hat]
        · cases hx : d.acqStartExc with
          | some msg =>
            simp [enterCapturingMode, enterLoop, forwardStep, hA, hcs,
              if_neg hm, hx] at h
          | none =>
            simp [enterCapturingMode, enterLoop, forwardStep, hA, hcs,
              if_neg hm, hx, hat, hm]

theorem leave_from_acquiring_success (camId : Nat) (mode : AccessMode)
    (d : Driver) (fs : List Nat)
    (h : (leaveCapturingMode camId mode d fs .acquiring).exc = none) :
    (leaveCapturingMode camId mode d fs .acquiring).state = FsmState.init ∧
    (leaveCapturingMode camId mode d fs .acquiring).trace =
      (if mode = AccessMode.Read then [] else [DriverCall.acqStop]) ++
        DriverCall.captureEnd :: DriverCall.queueFlush ::
          fs.map DriverCall.revoke := by
  cases hR : revokeLoop camId d fs with
  | mk rtr rexc =>
    have hstep : ∀ hxgood : rexc = none, rtr = fs.map DriverCall.revoke := by
      intro hxgood
      subst hxgood
      have h2 := revokeLoop_trace_of_success camId d fs (by rw [hR])
      rw [hR] at h2
      exact h2
    cases hce : callResult camId d.captureEndRes with
    | some e =>
      by_cases hm : mode = AccessMode.Read
      · subst hm
        simp [leaveCapturingMode, leaveLoop, backwardStep, hce] at h
      · cases hx : d.acqStopExc with
        | some msg =>
          simp [leaveCapturingMode, leaveLoop, backwardStep, if_neg hm, hx] at h
        | none =>
          simp [leaveCapturingMode, leaveLoop, backwardStep, if_neg hm, hx,
            hce] at h
    | none =>
      cases hqf : callResult camId d.queueFlushRes with
      | some e =>
        by_cases hm : mode = AccessMode.Read
        · subst hm
          simp [leaveCapturingMode, leaveLoop, backwardStep, hce, hqf] at h
        · cases hx : d.acqStopExc with
          | some msg =>
            simp [leaveCapturingMode, leaveLoop, backwardStep, if_neg hm,
              hx] at h
          | none =>
            simp [leaveCapturingMode, leaveLoop, backwardStep, if_neg hm, hx,
              hce, hqf] at h
      | none =>
        cases rexc with
        | some e =>
          by_cases hm : mode = AccessMode.Read
          · subst hm
            simp [leaveCapturingMode, leaveLoop, backwardStep, hce, hqf,
              hR] at h
          · cases hx : d.acqStopExc with
            | some msg =>
              simp [leaveCapturingMode, leaveLoop, backwardStep, if_neg hm,
                hx] at h
            | none =>
              simp [leaveCapturingMode, leaveLoop, backwardStep, if_neg hm,
                hx, hce, hqf, hR] at h
        | none =>
          have hrt := hstep rfl
          by_cases hm : mode = AccessMode.Read
          · subst hm
            simp [leaveCapturingMode, leaveLoop, backwardStep, hce, hqf, hR,
              hrt]
          · cases hx : d.acqStopExc with
            | some msg =>
              simp [leaveCapturingMode, leaveLoop, backwardStep, if_neg hm,
                hx] at h
            | none =>
              simp [leaveCapturingMode, leaveLoop, backwardStep, if_neg hm,
                hx, hce, hqf, hR, hrt, hm]

theorem enter_good (camId : Nat) (mode : AccessMode) (d : Driver)
    (hg : goodDriver d) (fs : List Nat) :
    enterCapturingMode camId mode d fs .init =
      ⟨fs.map DriverCall.announce ++ DriverCall.captureStart ::
        (if mode = AccessMode.Read then [] else [DriverCall.acqStart]),
       none, .acquiring⟩ := by
  obtain ⟨ha, hcs, hqf, hce, hr, hq, hw, hx1, hx2⟩ := hg
  have hA := announceLoop_good camId d ha fs
  by_cases hm : mode = AccessMode.Read
  · subst hm
    simp [enterCapturingMode, enterLoop, forwardStep, hA, callResult, hcs]
  · simp [enterCapturingMode, enterLoop, forwardStep, hA, callResult, hcs,
      if_neg hm, hx1, hm]

theorem leave_good (camId : Nat) (mode : AccessMode) (d : Driver)
    (hg : goodDriver d) (fs : List Nat) :
    leaveCapturingMode camId mode d fs .acquiring =
      ⟨(if mode = AccessMode.Read then [] else [DriverCall.acqStop]) ++
        DriverCall.captureEnd :: DriverCall.queueFlush ::
          fs.map DriverCall.revoke,
       none, .init⟩ := by
  obtain ⟨ha, hcs, hqf, hce, hr, hq, hw, hx1, hx2⟩ := hg
  have hR := revokeLoop_good camId d hr fs
  by_cases hm : mode = AccessMode.Read
  · subst hm
    simp [leaveCapturingMode, leaveLoop, backwardStep, hR, callResult, hce,
      hqf]
  · simp [leaveCapturingMode, leaveLoop, backwardStep, hR, callResult, hce,
      hqf, if_neg hm, hx2, hm]

theorem waitForFrames_good (camId : Nat) (d : Driver) (hg : goodDriver d)
    (fs : List Nat) :
    waitForFrames camId d fs .acquiring =
      (fs.map DriverCall.frameQueue ++ fs.map DriverCall.frameWait, none) := by
  obtain ⟨ha, hcs, hqf, hce, hr, hq, hw, hx1, hx2⟩ := hg
  simp [waitForFrames, queueLoop_good camId d hq fs, waitLoop_good camId d hw fs]

theorem isStreaming_stop (d : Driver) (c : Camera) :
    isStreaming (stopStreaming d c).cam = false := by
  cases hs : isStreaming c with
  | false =>
    rw [stopStreaming, hs]
    simpa using hs
  | true =>
    cases hfsm : c.captureFsm with
    | none => simp [isStreaming, hfsm] at hs
    | some sess =>
      have hd : c.disconnected = false := by
        simp [isStreaming, hfsm] at hs
        exact hs
      simp [stopStreaming, hs, hfsm, isStreaming, hd]

theorem startStreaming_err_not_already (d : Driver) (c : Camera) (n : Int)
    (hn : 0 < n) (hs : isStreaming c = false) (x : Nat) :
    (startStreaming d c n).err ≠ some (PyError.alreadyStreaming x) := by
  have hn2 : ¬ n ≤ 0 := by omega
  unfold startStreaming
  cases hE : (enterCapturingMode c.camId c.accessMode d
      (List.range n.toNat) .init).exc with
  | some e =>
    simp only [if_neg hn2, hs, Bool.false_eq_true, if_false, hE, ne_eq,
      Option.some.injEq]
    intro hcontra
    have h2 := enterLoop_not_already c.camId c.accessMode d
      (List.range n.toNat) 8 .init e hE
    rw [hcontra] at h2
    simp [isAlreadyStreamingErr] at h2
  | none =>
    simp only [if_neg hn2, hs, Bool.false_eq_true, if_false, hE]
    cases hq : (queueFramesLoop c.camId d
        (enterCapturingMode c.camId c.accessMode d
          (List.range n.toNat) .init).state (List.range n.toNat)).2 with
    | none => simp [hq]
    | some e =>
      simp only [hq, ne_eq, Option.some.injEq]
      intro hcontra
      have h2 := queueFramesLoop_not_already c.camId d _ (List.range n.toNat)
        e hq
      rw [hcontra] at h2
      simp [isAlreadyStreamingErr] at h2

theorem countCall_cons (p : DriverCall → Bool) (x : DriverCall)
    (tr : List DriverCall) :
    countCall p (x :: tr) = (if p x then 1 else 0) + countCall p tr := by
  simp only [countCall, List.filter_cons]
  split <;> simp [Nat.add_comm]

theorem countCall_map_true (p : DriverCall → Bool) (f : Nat → DriverCall)
    (hp : ∀ i, p (f i) = true) (fs : List Nat) :
    countCall p (fs.map f) = fs.length := by
  induction fs with
  | nil => rfl
  | cons i rest ih => simp [countCall_cons, hp, ih, Nat.add_comm]

theorem countCall_map_false (p : DriverCall → Bool) (f : Nat → DriverCall)
    (hp : ∀ i, p (f i) = false) (fs : List Nat) :
    countCall p (fs.map f) = 0 := by
  apply countCall_eq_zero_of_all
  intro x hx
  obtain ⟨i, -, rfl⟩ := List.mem_map.mp hx
  exact hp i

theorem fsmQueueFrame_fst (camId : Nat) (d : Driver) (s : FsmState) (f : Nat) :
    (fsmQueueFrame camId d s f).1 = [] ∨
    (fsmQueueFrame camId d s f).1 = [DriverCall.frameQueue f] := by
  unfold fsmQueueFrame
  split
  · cases callResult camId (d.frameQueueRes f) <;> simp
  · simp

theorem queueFramesLoop_calls (camId : Nat) (d : Driver) (s : FsmState)
    (fs : List Nat) :
    ∀ x ∈ (queueFramesLoop camId d s fs).1,
      ∃ i, x = DriverCall.frameQueue i := by
  induction fs with
  | nil => simp [queueFramesLoop]
  | cons f rest ih =>
    cases hq : fsmQueueFrame camId d s f with
    | mk qtr qerr =>
      have hfst := fsmQueueFrame_fst camId d s f
      rw [hq] at hfst
      have hqt : ∀ x ∈ qtr, ∃ i, x = DriverCall.frameQueue i := by
        rcases hfst with rfl | rfl <;> simp
      cases qerr with
      | some e =>
        simpa only [queueFramesLoop, hq] using hqt
      | none =>
        simp only [queueFramesLoop, hq]
        intro x hx
        rcases List.mem_append.mp hx with h1 | h2
        · exact hqt x h1
        · exact ih x h2

/-- The FSM-level half of the round-trip claim: a successful full forward
run followed by a successful full backward run returns the machine to
`Init` and balances announce and revoke calls exactly. -/
theorem roundtripFsm (camId : Nat) (mode : AccessMode) (d : Driver)
    (fs : List Nat)
    (hEnter : (enterCapturingMode camId mode d fs .init).exc = none)
    (hLeave : (leaveCapturingMode camId mode d fs
      (enterCapturingMode camId mode d fs .init).state).exc = none) :
    (leaveCapturingMode camId mode d fs
      (enterCapturingMode camId mode d fs .init).state).state =
        FsmState.init ∧
    countCall isAnnounce ((enterCapturingMode camId mode d fs .init).trace ++
      (leaveCapturingMode camId mode d fs
        (enterCapturingMode camId mode d fs .init).state).trace) =
    countCall isRevoke ((enterCapturingMode camId mode d fs .init).trace ++
      (leaveCapturingMode camId mode d fs
        (enterCapturingMode camId mode d fs .init).state).trace) := by
  obtain ⟨hst, htrE⟩ := enter_from_init_success camId mode d fs hEnter
  rw [hst] at hLeave ⊢
  obtain ⟨hst2, htrL⟩ := leave_from_acquiring_success camId mode d fs hLeave
  refine ⟨hst2, ?_⟩
  rw [htrE, htrL]
  have hA1 : countCall isAnnounce (fs.map DriverCall.announce) = fs.length :=
    countCall_map_true _ _ (fun _ => rfl) fs
  have hA2 : countCall isRevoke (fs.map DriverCall.announce) = 0 :=
    countCall_map_false _ _ (fun _ => rfl) fs
  have hR1 : countCall isRevoke (fs.map DriverCall.revoke) = fs.length :=
    countCall_map_true _ _ (fun _ => rfl) fs
  have hR2 : countCall isAnnounce (fs.map DriverCall.revoke) = 0 :=
    countCall_map_false _ _ (fun _ => rfl) fs
  by_cases hm : mode = AccessMode.Read
  · simp [hm, countCall_append, countCall_cons, hA1, hA2, hR1, hR2,
      isAnnounce, isRevoke]
  · simp [if_neg hm, countCall_append, countCall_cons, hA1, hA2, hR1, hR2,
      isAnnounce, isRevoke]

/-- The engine-level half of the round-trip claim: a successful
`start_streaming` followed by a successful `stop_streaming` leaves the
camera not streaming, with the FSM discarded, and balances announce and
revoke calls. -/
theorem roundtripEngine (d dStop : Driver) (c : Camera) (n : Int)
    (hn : 0 < n) (hdisc : c.disconnected = false)
    (hErr1 : (startStreaming d c n).err = none)
    (hErr2 : (stopStreaming dStop (startStreaming d c n).cam).err = none) :
    isStreaming (stopStreaming dStop (startStreaming d c n).cam).cam = false ∧
    (stopStreaming dStop (startStreaming d c n).cam).cam.captureFsm = none ∧
    countCall isAnnounce ((startStreaming d c n).trace ++
      (stopStreaming dStop (startStreaming d c n).cam).trace) =
    countCall isRevoke ((startStreaming d c n).trace ++
      (stopStreaming dStop (startStreaming d c n).cam).trace) := by
  have hn2 : ¬ n ≤ 0 := by omega
  by_cases hs : isStreaming c
  · simp [startStreaming, if_neg hn2, hs] at hErr1
  · have hsF : isStreaming c = false := by simpa using hs
    cases hE : (enterCapturingMode c.camId c.accessMode d
        (List.range n.toNat) .init).exc with
    | some e =>
      simp [startStreaming, if_neg hn2, hsF, hE] at hErr1
    | none =>
      obtain ⟨hst, htrE⟩ := enter_from_init_success _ _ _ _ hE
      have hr1 : startStreaming d c n =
          ⟨{ c with captureFsm := some (Session.mk (List.range n.toNat) FsmState.acquiring) },
           (enterCapturingMode c.camId c.accessMode d
             (List.range n.toNat) .init).trace ++
             (queueFramesLoop c.camId d FsmState.acquiring
               (List.range n.toNat)).1,
           (queueFramesLoop c.camId d FsmState.acquiring
             (List.range n.toNat)).2⟩ := by
        simp [startStreaming, if_neg hn2, hsF, hE, hst]
      rw [hr1] at hErr1 hErr2 ⊢
      have hq2 : (queueFramesLoop c.camId d FsmState.acquiring
          (List.range n.toNat)).2 = none := hErr1
      have hs1 : isStreaming { c with captureFsm := some (Session.mk (List.range n.toNat) FsmState.acquiring) } = true := by
        simp [isStreaming, hdisc]
      have hr2 : stopStreaming dStop { c with captureFsm := some (Session.mk (List.range n.toNat) FsmState.acquiring) } =
          ⟨{ c with captureFsm := none },
           (leaveCapturingMode c.camId c.accessMode dStop
             (List.range n.toNat) FsmState.acquiring).trace,
           (leaveCapturingMode c.camId c.accessMode dStop
             (List.range n.toNat) FsmState.acquiring).exc⟩ := by
        simp [stopStreaming, hs1]
      rw [hr2] at hErr2 ⊢
      have hlr : (leaveCapturingMode c.camId c.accessMode dStop
          (List.range n.toNat) FsmState.acquiring).exc = none := hErr2
      obtain ⟨hst2, htrL⟩ := leave_from_acquiring_success _ _ _ _ hlr
      refine ⟨by simp [isStreaming], by simp, ?_⟩
      have hQA : countCall isAnnounce (queueFramesLoop c.camId d
          FsmState.acquiring (List.range n.toNat)).1 = 0 := by
        apply countCall_eq_zero_of_all
        intro x hx
        obtain ⟨i, rfl⟩ := queueFramesLoop_calls _ _ _ _ x hx
        rfl
      have hQR : countCall isRevoke (queueFramesLoop c.camId d
          FsmState.acquiring (List.range n.toNat)).1 = 0 := by
        apply countCall_eq_zero_of_all
        intro x hx
        obtain ⟨i, rfl⟩ := queueFramesLoop_calls _ _ _ _ x hx
        rfl
      rw [htrE, htrL]
      have hA1 : countCall isAnnounce
          ((List.range n.toNat).map DriverCall.announce) =
          (List.range n.toNat).length :=
        countCall_map_true _ _ (fun _ => rfl) _
      have hA2 : countCall isRevoke
          ((List.range n.toNat).map DriverCall.announce) = 0 :=
        countCall_map_false _ _ (fun _ => rfl) _
      have hR1 : countCall isRevoke
          ((List.range n.toNat).map DriverCall.revoke) =
          (List.range n.toNat).length :=
        countCall_map_true _ _ (fun _ => rfl) _
      have hR2 : countCall isAnnounce
          ((List.range n.toNat).map DriverCall.revoke) = 0 :=
        countCall_map_false _ _ (fun _ => rfl) _
      by_cases hm : c.accessMode = AccessMode.Read
      · simp [hm, countCall_append, countCall_cons, hA1, hA2, hR1, hR2,
          hQA, hQR, isAnnounce, isRevoke]
      · simp [if_neg hm, countCall_append, countCall_cons, hA1, hA2, hR1,
          hR2, hQA, hQR, isAnnounce, isRevoke]

/-- A camera with an active streaming session (two frames, state
Acquiring, as left by a successful `start_streaming`). -/
def camS : Camera := ⟨0, .Full, false, some ⟨[0, 1], .acquiring⟩⟩

/-- A camera that was flagged disconnected while it still held a capture
FSM (the discovery thread sets `_disconnected` on a `Missing` event). -/
def camDis : Camera := ⟨0, .Full, true, some ⟨[0], .acquiring⟩⟩

/-- Driver whose announce primitive fails on the third buffer (index 2)
and succeeds otherwise. -/
def dFail3 : Driver :=
  ⟨fun i => if i = 2 then .Other else .Success, .Success, .Success, .Success,
   fun _ => .Success, fun _ => .Success, fun _ => .Success, none, none⟩

/-- Driver whose capture_start fails with a generic code and whose
revoke fails with a bad handle. -/
def dStartRevokeFail : Driver :=
  ⟨fun _ => .Success, .Other, .Success, .Success, fun _ => .BadHandle,
   fun _ => .Success, fun _ => .Success, none, none⟩

/-- Driver whose capture_end fails with a bad handle (device
disconnected mid-stream). -/
def dBadHandleEnd : Driver :=
  ⟨fun _ => .Success, .Success, .Success, .BadHandle, fun _ => .Success,
   fun _ => .Success, fun _ => .Success, none, none⟩

theorem stop_noop_of_not_streaming (d : Driver) (c : Camera)
    (hs : isStreaming c = false) : stopStreaming d c = ⟨c, [], none⟩ := by
  simp [stopStreaming, hs]

/-- Claim C1: a capture state machine that successfully completes the
full forward sequence (`enter_capturing_mode`) and then the full
backward sequence (`leave_capturing_mode`) ends in the `Init` state with
announce and revoke driver calls exactly balanced; equivalently, a
successful `start_streaming` followed by a successful `stop_streaming`
ends with `is_streaming() = false`, the state machine discarded, and
announce/revoke call counts equal (zero outstanding registrations). -/
theorem C1_roundtrip :
    (∀ (camId : Nat) (mode : AccessMode) (d : Driver) (fs : List Nat),
      (enterCapturingMode camId mode d fs .init).exc = none →
      (leaveCapturingMode camId mode d fs
        (enterCapturingMode camId mode d fs .init).state).exc = none →
      (leaveCapturingMode camId mode d fs
        (enterCapturingMode camId mode d fs .init).state).state =
          FsmState.init ∧
      countCall isAnnounce
        ((enterCapturingMode camId mode d fs .init).trace ++
         (leaveCapturingMode camId mode d fs
           (enterCapturingMode camId mode d fs .init).state).trace) =
      countCall isRevoke
        ((enterCapturingMode camId mode d fs .init).trace ++
         (leaveCapturingMode camId mode d fs
           (enterCapturingMode camId mode d fs .init).state).trace)) ∧
    (∀ (d dStop : Driver) (c : Camera) (n : Int), 0 < n →
      c.disconnected = false →
      (startStreaming d c n).err = none →
      (stopStreaming dStop (startStreaming d c n).cam).err = none →
      isStreaming (stopStreaming dStop (startStreaming d c n).cam).cam =
        false ∧
      (stopStreaming dStop (startStreaming d c n).cam).cam.captureFsm =
        none ∧
      countCall isAnnounce ((startStreaming d c n).trace ++
        (stopStreaming dStop (startStreaming d c n).cam).trace) =
      countCall isRevoke ((startStreaming d c n).trace ++
        (stopStreaming dStop (startStreaming d c n).cam).trace)) :=
  ⟨fun camId mode d fs h1 h2 => roundtripFsm camId mode d fs h1 h2,
   fun d dStop c n hn hd h1 h2 => roundtripEngine d dStop c n hn hd h1 h2⟩

/-- Witness for C1 at an all-success driver, two buffers. -/
theorem C1_roundtrip_witness :
    ((enterCapturingMode 0 AccessMode.Full dGood [0, 1] FsmState.init).exc =
        none ∧
      (leaveCapturingMode 0 AccessMode.Full dGood [0, 1]
        (enterCapturingMode 0 AccessMode.Full dGood [0, 1]
          FsmState.init).state).state = FsmState.init) ∧
    ((0 : Int) < 2 ∧
      isStreaming
        (stopStreaming dGood (startStreaming dGood cam0 2).cam).cam =
          false) :=
  ⟨⟨by decide,
    (C1_roundtrip.1 0 AccessMode.Full dGood [0, 1] (by decide)
      (by decide)).1⟩,
   ⟨by decide,
    (C1_roundtrip.2 dGood dGood cam0 2 (by decide) (by decide) (by decide)
      (by decide)).1⟩⟩

/-- Claim C5: `start_streaming` on a camera that is already streaming
raises the already-streaming `VimbaCameraError` and leaves the camera
record — in particular the active capture FSM with its buffer set and
state — unchanged, with no driver call issued. -/
theorem C5_start_while_streaming (d : Driver) (c : Camera) (n : Int)
    (hn : 0 < n) (hs : isStreaming c = true) :
    startStreaming d c n = ⟨c, [], some (PyError.alreadyStreaming c.camId)⟩ := by
  have hn2 : ¬ n ≤ 0 := by omega
  simp [startStreaming, if_neg hn2, hs]

/-- Witness for C5 on a concrete streaming camera. -/
theorem C5_witness :
    (0 : Int) < 5 ∧ isStreaming camS = true ∧
    startStreaming dGood camS 5 =
      ⟨camS, [], some (PyError.alreadyStreaming 0)⟩ :=
  ⟨by decide, by decide,
   C5_start_while_streaming dGood camS 5 (by decide) (by decide)⟩

/-- Claim C6: `stop_streaming` is idempotent: when the engine is not
streaming it returns normally with no driver call, and in particular the
second of two consecutive `stop_streaming` calls is such a no-op. -/
theorem C6_stop_idempotent :
    (∀ (d : Driver) (c : Camera), isStreaming c = false →
      stopStreaming d c = ⟨c, [], none⟩) ∧
    (∀ (d d2 : Driver) (c : Camera),
      stopStreaming d2 (stopStreaming d c).cam =
        ⟨(stopStreaming d c).cam, [], none⟩) :=
  ⟨fun d c hs => stop_noop_of_not_streaming d c hs,
   fun d d2 c => stop_noop_of_not_streaming d2 _ (isStreaming_stop d c)⟩

/-- Witness for C6: a fresh camera, and a second stop after stopping a
streaming camera. -/
theorem C6_witness :
    isStreaming cam0 = false ∧
    stopStreaming dGood cam0 = ⟨cam0, [], none⟩ ∧
    stopStreaming dGood (stopStreaming dGood camS).cam =
      ⟨(stopStreaming dGood camS).cam, [], none⟩ :=
  ⟨by decide, C6_stop_idempotent.1 dGood cam0 (by decide),
   C6_stop_idempotent.2 dGood dGood camS⟩

/-- Claim C7: `queue_frame` with a frame that is not in the active
session's buffer tuple raises `ValueError` and issues no driver call. -/
theorem C7_queue_foreign_frame (d : Driver) (c : Camera) (sess : Session)
    (f : Nat) (hfsm : c.captureFsm = some sess) (hf : f ∉ sess.frames) :
    queueFrame d c f = ([], some PyError.valueError) := by
  simp [queueFrame, hfsm, hf]

/-- Witness for C7: frame 7 is foreign to the active session. -/
theorem C7_witness :
    camS.captureFsm = some (Session.mk [0, 1] FsmState.acquiring) ∧
    (7 : Nat) ∉ (Session.mk [0, 1] FsmState.acquiring).frames ∧
    queueFrame dGood camS 7 = ([], some PyError.valueError) :=
  ⟨by decide, by decide,
   C7_queue_foreign_frame dGood camS (Session.mk [0, 1] FsmState.acquiring) 7
     (by decide) (by decide)⟩

/-- Claim C8: once `stop_streaming` has completed on a streaming camera
the capture FSM is discarded, and a late completion notification makes
the callback dispatcher a silent no-op: it neither invokes the user
handler (no `dispatched`/`handlerRaised` outcome) nor raises. -/
theorem C8_callback_after_stop (d : Driver) (c : Camera) (rawBuf : Nat)
    (hr : Bool) (hs : isStreaming c = true) :
    (stopStreaming d c).cam.captureFsm = none ∧
    frameCbWrapper (stopStreaming d c).cam rawBuf hr = CbOutcome.noop := by
  cases hfsm : c.captureFsm with
  | none => simp [isStreaming, hfsm] at hs
  | some sess =>
    refine ⟨?_, ?_⟩ <;> simp [stopStreaming, hs, hfsm, frameCbWrapper]

/-- Witness for C8 after stopping a concrete streaming camera. -/
theorem C8_witness :
    isStreaming camS = true ∧
    frameCbWrapper (stopStreaming dGood camS).cam 0 true = CbOutcome.noop :=
  ⟨by decide, (C8_callback_after_stop dGood camS 0 true (by decide)).2⟩

/-- Claim C10 (amended): after any `stop_streaming`, `is_streaming()` is
false and a later `start_streaming` is never rejected as already
streaming; the capture FSM reference is cleared whenever the camera was
streaming when stop ran — but a disconnected camera keeps its stale FSM
reference (see the counterexample). -/
theorem C10_stop_state (d : Driver) (c : Camera) :
    isStreaming (stopStreaming d c).cam = false ∧
    (isStreaming c = true → (stopStreaming d c).cam.captureFsm = none) ∧
    (∀ (d2 : Driver) (n : Int) (x : Nat), 0 < n →
      (startStreaming d2 (stopStreaming d c).cam n).err ≠
        some (PyError.alreadyStreaming x)) := by
  refine ⟨isStreaming_stop d c, ?_, ?_⟩
  · intro hs
    cases hfsm : c.captureFsm with
    | none => simp [isStreaming, hfsm] at hs
    | some sess => simp [stopStreaming, hs, hfsm]
  · intro d2 n x hn
    exact startStreaming_err_not_already d2 _ n hn (isStreaming_stop d c) x

/-- Counterexample to C10 as stated: on a disconnected camera that still
holds a capture FSM, `stop_streaming` returns normally as a no-op and
the capture state machine reference is NOT cleared. -/
theorem C10_counterexample :
    stopStreaming dGood camDis = ⟨camDis, [], none⟩ ∧
    camDis.captureFsm ≠ none := by decide

/-- Witness for C10 on a concrete streaming camera. -/
theorem C10_witness :
    isStreaming (stopStreaming dGood camS).cam = false ∧
    (isStreaming camS = true ∧
      (stopStreaming dGood camS).cam.captureFsm = none) ∧
    ((0 : Int) < 3 ∧
      (startStreaming dGood (stopStreaming dGood camS).cam 3).err ≠
        some (PyError.alreadyStreaming 0)) :=
  ⟨(C10_stop_state dGood camS).1,
   ⟨by decide, (C10_stop_state dGood camS).2.1 (by decide)⟩,
   ⟨by decide, (C10_stop_state dGood camS).2.2 dGood 3 0 (by decide)⟩⟩

/-- A connected camera holding a session stopped halfway (state
NotAcquiring), as when a backward transition previously failed. -/
def camNotAcq : Camera := ⟨0, .Full, false, some ⟨[0], .notAcquiring⟩⟩

/-- Counterexample to C2 as stated: with announce failing on the 3rd of 5
buffers, `start_streaming` issues zero revoke calls — not revokes for the
two buffers already announced. -/
theorem C2_counterexample :
    countCall isRevoke (startStreaming dFail3 cam0 5).trace = 0 ∧
    countCall isRevoke (startStreaming dFail3 cam0 5).trace ≠ 2 := by decide

/-- Claim C2 (amended): when announce fails on the 3rd of 5 buffers,
`start_streaming` raises the typed error built from the driver's
announce error code and issues no capture_start — but it issues NO
revoke calls: the failed `Init → Announced` transition leaves the
machine in `Init`, so the backward unwind performs nothing and the two
already-announced buffers remain registered with the driver. -/
theorem C2_announce_fail_unwind (d : Driver) (c : Camera) (e : VmbErr)
    (h0 : d.announceRes 0 = VmbErr.Success)
    (h1 : d.announceRes 1 = VmbErr.Success)
    (h2 : d.announceRes 2 = e) (he : e ≠ VmbErr.Success)
    (hs : isStreaming c = false) :
    startStreaming d c 5 =
      ⟨{ c with captureFsm := none },
       [DriverCall.announce 0, DriverCall.announce 1, DriverCall.announce 2],
       some (buildCameraError c.camId e)⟩ := by
  have hn2 : ¬ (5 : Int) ≤ 0 := by omega
  have hrange : List.range 5 = [0, 1, 2, 3, 4] := by decide
  have hA : announceLoop c.camId d [0, 1, 2, 3, 4] =
      ([DriverCall.announce 0, DriverCall.announce 1, DriverCall.announce 2],
       some (buildCameraError c.camId e)) := by
    simp [announceLoop, callResult, h0, h1, h2, he]
  simp [startStreaming, if_neg hn2, hs, hrange, enterCapturingMode,
    enterLoop, forwardStep, hA, leaveCapturingMode, leaveLoop, backwardStep]

/-- Witness for the amended C2 at the concrete failing driver. -/
theorem C2_witness :
    dFail3.announceRes 2 = VmbErr.Other ∧ isStreaming cam0 = false ∧
    startStreaming dFail3 cam0 5 =
      ⟨{ cam0 with captureFsm := none },
       [DriverCall.announce 0, DriverCall.announce 1, DriverCall.announce 2],
       some (buildCameraError 0 VmbErr.Other)⟩ :=
  ⟨by decide, by decide,
   C2_announce_fail_unwind dFail3 cam0 VmbErr.Other rfl rfl rfl
     (by decide) (by decide)⟩

/-- Counterexample to C4 as stated: with capture_start failing and the
unwind's first revoke also failing, the unwind error exists but the
caller receives only the original forward error — the two errors are not
both reported. -/
theorem C4_counterexample :
    (startStreaming dStartRevokeFail cam0 2).err =
      some (PyError.genericError VmbErr.Other) ∧
    (leaveCapturingMode 0 AccessMode.Full dStartRevokeFail [0, 1]
      FsmState.announced).exc = some (PyError.badHandleError 0) ∧
    PyError.genericError VmbErr.Other ≠ PyError.badHandleError 0 := by decide

/-- Claim C4 (amended): when the forward sequence fails partway,
`start_streaming` invokes the full backward unwind and raises exactly
the original forward-transition error; a failure of the unwind itself is
discarded, not reported alongside the original error. -/
theorem C4_start_fail_unwind (d : Driver) (c : Camera) (n : Int)
    (e : PyError) (hn : 0 < n) (hs : isStreaming c = false)
    (hE : (enterCapturingMode c.camId c.accessMode d
      (List.range n.toNat) .init).exc = some e) :
    startStreaming d c n =
      ⟨{ c with captureFsm := none },
       (enterCapturingMode c.camId c.accessMode d
         (List.range n.toNat) .init).trace ++
         (leaveCapturingMode c.camId c.accessMode d (List.range n.toNat)
           (enterCapturingMode c.camId c.accessMode d
             (List.range n.toNat) .init).state).trace,
       some e⟩ := by
  have hn2 : ¬ n ≤ 0 := by omega
  simp [startStreaming, if_neg hn2, hs, hE]

/-- Witness for the amended C4 at the concrete failing driver. -/
theorem C4_witness :
    (0 : Int) < 2 ∧ isStreaming cam0 = false ∧
    (enterCapturingMode 0 AccessMode.Full dStartRevokeFail
      (List.range (2 : Int).toNat) FsmState.init).exc =
        some (PyError.genericError VmbErr.Other) ∧
    startStreaming dStartRevokeFail cam0 2 =
      ⟨{ cam0 with captureFsm := none },
       (enterCapturingMode 0 AccessMode.Full dStartRevokeFail
         (List.range (2 : Int).toNat) FsmState.init).trace ++
         (leaveCapturingMode 0 AccessMode.Full dStartRevokeFail
           (List.range (2 : Int).toNat)
           (enterCapturingMode 0 AccessMode.Full dStartRevokeFail
             (List.range (2 : Int).toNat) FsmState.init).state).trace,
       some (PyError.genericError VmbErr.Other)⟩ :=
  ⟨by decide, by decide, by decide,
   C4_start_fail_unwind dStartRevokeFail cam0 2
     (PyError.genericError VmbErr.Other) (by decide) (by decide) (by decide)⟩

/-- Counterexample to C9 as stated: when capture_end fails with a bad
handle during an actually-running unwind, `stop_streaming` raises the
bad-handle error to the caller instead of absorbing it. -/
theorem C9_counterexample :
    (stopStreaming dBadHandleEnd camNotAcq).err =
      some (PyError.badHandleError 0) := by decide

/-- Claim C9 (amended): mid-stream disconnection is absorbed through the
`is_streaming` guard — on a camera flagged disconnected,
`stop_streaming` returns normally with no driver call; but when the
backward unwind does run and a driver primitive fails (e.g. with a
bad-handle error), the resulting typed error is raised to the caller,
with the FSM reference still cleared. -/
theorem C9_stop_disconnect :
    (∀ (d : Driver) (c : Camera), c.disconnected = true →
      stopStreaming d c = ⟨c, [], none⟩) ∧
    (∀ (d : Driver) (c : Camera) (sess : Session) (e : PyError),
      c.captureFsm = some sess → c.disconnected = false →
      (leaveCapturingMode c.camId c.accessMode d sess.frames
        sess.fsmState).exc = some e →
      stopStreaming d c =
        ⟨{ c with captureFsm := none },
         (leaveCapturingMode c.camId c.accessMode d sess.frames
           sess.fsmState).trace,
         some e⟩) := by
  constructor
  · intro d c hd
    apply stop_noop_of_not_streaming
    simp [isStreaming, hd]
  · intro d c sess e hfsm hd hl
    have hs : isStreaming c = true := by simp [isStreaming, hfsm, hd]
    simp [stopStreaming, hs, hfsm, hl]

/-- Witness for the amended C9: a disconnected camera and a bad-handle
failure during a live unwind. -/
theorem C9_witness :
    camDis.disconnected = true ∧
    stopStreaming dGood camDis = ⟨camDis, [], none⟩ ∧
    (camNotAcq.captureFsm = some (Session.mk [0] FsmState.notAcquiring) ∧
      stopStreaming dBadHandleEnd camNotAcq =
        ⟨{ camNotAcq with captureFsm := none }, [DriverCall.captureEnd],
         some (PyError.badHandleError 0)⟩) :=
  ⟨by decide, C9_stop_disconnect.1 dGood camDis (by decide),
   ⟨by decide,
    C9_stop_disconnect.2 dBadHandleEnd camNotAcq
      (Session.mk [0] FsmState.notAcquiring) (PyError.badHandleError 0)
      (by decide) (by decide) (by decide)⟩⟩

theorem leave_from_init (camId : Nat) (mode : AccessMode) (d : Driver)
    (fs : List Nat) :
    leaveCapturingMode camId mode d fs .init = ⟨[], none, .init⟩ := by
  simp [leaveCapturingMode, leaveLoop, backwardStep]

theorem genLoop_good (camId : Nat) (mode : AccessMode) (d : Driver)
    (hg : goodDriver d) (n : Nat) :
    ∀ cnt : Nat,
      (genLoop camId mode d [0] n .init cnt).state = FsmState.init ∧
      (genLoop camId mode d [0] n .init cnt).yields = List.range' cnt n ∧
      (genLoop camId mode d [0] n .init cnt).err = none := by
  induction n with
  | zero => intro cnt; simp [genLoop, List.range']
  | succ n ih =>
    intro cnt
    have hE := enter_good camId mode d hg [0]
    have hW := waitForFrames_good camId d hg [0]
    have hL := leave_good camId mode d hg [0]
    obtain ⟨ih1, ih2, ih3⟩ := ih (cnt + 1)
    simp [genLoop, hE, hW, hL, ih1, ih2, ih3, List.range']

/-- Claim C3: with the customary successful driver, the frame generator
constructed by `get_frame_generator` with finite limit N and positive
timeout yields exactly N frames; when the camera is streaming at its
first run it raises before yielding anything and issues no driver
primitive; and for N = 0 it yields an empty sequence while issuing no
driver primitive at all. -/
theorem C3_generator_count :
    (∀ (d : Driver) (c : Camera) (N : Nat) (t : Int), 0 < t →
      isStreaming c = false → goodDriver d →
      ∃ g, getFrameGenerator d c (N : Int) t = .ok g ∧
        g.yields = List.range N ∧ g.err = none) ∧
    (∀ (d : Driver) (c : Camera) (N : Nat) (t : Int), 0 < t →
      isStreaming c = true →
      getFrameGenerator d c (N : Int) t =
        .ok ⟨[], [],
          some (.cameraMsgError "Operation not supported while streaming.")⟩) ∧
    (∀ (d : Driver) (c : Camera) (t : Int), 0 < t →
      isStreaming c = false →
      getFrameGenerator d c 0 t = .ok ⟨[], [], none⟩) := by
  refine ⟨?_, ?_, ?_⟩
  · intro d c N t ht hs hg
    have ht2 : ¬ t ≤ 0 := by omega
    have hn2 : ¬ ((N : Int) ≠ 0 ∧ (N : Int) < 0) := by omega
    obtain ⟨h1, h2, h3⟩ := genLoop_good c.camId c.accessMode d hg N 0
    have hlf := leave_from_init c.camId c.accessMode d [0]
    refine ⟨frameGenerator d c ((N : Int)).toNat, ?_, ?_, ?_⟩
    · simp [getFrameGenerator, hn2, ht2]
    · rw [Int.toNat_natCast]
      simp [frameGenerator, hs, hlf, h1, h2, h3, List.range_eq_range']
    · rw [Int.toNat_natCast]
      simp [frameGenerator, hs, hlf, h1, h2, h3]
  · intro d c N t ht hs
    have ht2 : ¬ t ≤ 0 := by omega
    have hn2 : ¬ ((N : Int) ≠ 0 ∧ (N : Int) < 0) := by omega
    simp [getFrameGenerator, hn2, ht2, frameGenerator, hs]
  · intro d c t ht hs
    have ht2 : ¬ t ≤ 0 := by omega
    have hlf := leave_from_init c.camId c.accessMode d [0]
    simp [getFrameGenerator, ht2, frameGenerator, hs, genLoop, hlf]

/-- Witness for C3: two frames on a good driver, a streaming camera, and
the zero-frame edge case. -/
theorem C3_witness :
    ((0 : Int) < 100 ∧ isStreaming cam0 = false ∧
      (∃ g, getFrameGenerator dGood cam0 ((2 : Nat) : Int) 100 = .ok g ∧
        g.yields = List.range 2 ∧ g.err = none)) ∧
    (isStreaming camS = true ∧
      getFrameGenerator dGood camS ((1 : Nat) : Int) 100 =
        .ok ⟨[], [],
          some (.cameraMsgError "Operation not supported while streaming.")⟩) ∧
    getFrameGenerator dGood cam0 0 100 = .ok ⟨[], [], none⟩ :=
  ⟨⟨by decide, by decide,
    C3_generator_count.1 dGood cam0 2 100 (by decide) (by decide)
      ⟨fun _ => rfl, rfl, rfl, rfl, fun _ => rfl, fun _ => rfl,
       fun _ => rfl, rfl, rfl⟩⟩,
   ⟨by decide,
    C3_generator_count.2.1 dGood camS 1 100 (by decide) (by decide)⟩,
   C3_generator_count.2.2 dGood cam0 100 (by decide) (by decide)⟩

end Vimba
